import Mathlib

/-!
Shallow embedding of the `NetworkController` unit of the starmask-extension
repository (`app/scripts/controllers/network/network.js`).

The controller is single-threaded and event-driven: all public operations are
synchronous except the liveness probe issued by `lookupNetwork`, whose callback
runs later.  We model the controller instance as an explicit state record
(`NCState`); synchronous operations are state transformers, and an in-flight
probe is a pending entry (carrying the network-status snapshot it captured)
whose delivery is a separate step (`fireProbe` / `deliverProbe`).

Operations that can throw (JS `assert` / `throw`) return `NCState × Option
String`: `(st, some msg)` models a throw of `msg` with `st` the state at the
moment of the throw (mutations performed before the throw persist, as in JS);
`(st, none)` models normal completion.

Store writes (`@metamask/obs-store`, a third-party dependency) are modelled
as total replacement of the stored value, following the Configuration Store
contract stated in the spec (set is a total replace, no merge).

Event emission (`NETWORK_WILL_CHANGE` / `NETWORK_DID_CHANGE`) and status-store
writes are recorded in an event trace so that ordering properties can be
stated.  The constructor's standing subscription
`this.on(NETWORK_DID_CHANGE, this.lookupNetwork)` is modelled by the
`didChangeSubscribed` flag, set by the constructor and consulted when the
event is emitted (JS `EventEmitter.emit` runs listeners synchronously).
-/

namespace StarMask

/-- Modelled from the spec: the sentinel provider type reserved for custom RPC
endpoints (`NETWORK_TYPE_RPC` from `shared/constants/network`, a module not
present in the sources). -/
def NETWORK_TYPE_RPC : String := "rpc"

/-- Modelled from the spec: the closed set of managed-endpoint (Infura-style)
provider names (`INFURA_PROVIDER_TYPES` from `shared/constants/network`). -/
def INFURA_PROVIDER_TYPES : List String := ["main", "barnard"]

/-- Modelled from the spec: the static name-to-chainId table
(`NETWORK_TYPE_TO_ID_MAP` from `shared/constants/network`); the spec's
scenario gives managed endpoint "main" chainId `0x1`. -/
def NETWORK_TYPE_TO_ID_MAP (ty : String) : Option String :=
  if ty = "main" then some "0x1"
  else if ty = "barnard" then some "0xfb"
  else none

/-- A hexadecimal digit, either case. -/
def isHexDigitChar (c : Char) : Bool :=
  c.isDigit || ('a' ≤ c && c ≤ 'f') || ('A' ≤ c && c ≤ 'F')

/-- Modelled from the spec: `isPrefixedFormattedHexString` from
`shared/modules/network.utils` (not present in the sources): the chainId must
be a 0x-prefixed, non-empty hexadecimal string. -/
def isPrefixedFormattedHexString (s : String) : Bool :=
  match s.data with
  | '0' :: 'x' :: rest => !rest.isEmpty && rest.all isHexDigitChar
  | _ => false

/-- Numeric value of a hex digit. -/
def hexDigitVal (c : Char) : Nat :=
  if c.isDigit then c.toNat - '0'.toNat
  else if 'a' ≤ c && c ≤ 'f' then c.toNat - 'a'.toNat + 10
  else if 'A' ≤ c && c ≤ 'F' then c.toNat - 'A'.toNat + 10
  else 0

/-- JS `parseInt(chainId, 16)` on a 0x-prefixed hex string. -/
def parseHexChainId (s : String) : Nat :=
  (s.data.drop 2).foldl (fun acc c => 16 * acc + hexDigitVal c) 0

/-- JS `Number.MAX_SAFE_INTEGER`. -/
def MAX_SAFE_INTEGER : Nat := 2 ^ 53 - 1

/-- Modelled from the spec: `isSafeChainId` from
`shared/modules/network.utils` (not present in the sources): the numeric
value must be within the safe-integer bound. -/
def isSafeChainId (n : Nat) : Bool := n ≤ MAX_SAFE_INTEGER

/-- A provider configuration, as held by `providerStore` /
`previousProviderStore`.  An absent `chainId` / `rpcUrl` is the empty string
(the only falsy string in the JS code paths concerned); `rpcPrefs` is opaque
display metadata. -/
structure ProviderConfig where
  type : String
  rpcUrl : String := ""
  chainId : String := ""
  ticker : String := "STC"
  nickname : String := ""
  rpcPrefs : Option String := none
deriving DecidableEq, Repr

/-- Trace events: lifecycle event emissions, status-store writes, and
connection installation, in program order. -/
inductive Ev where
  | willChange : Ev
  | statusSet : String → Ev
  | installed : Nat → Ev
  | didChange : String → Ev
  | probeStarted : String → Ev
deriving DecidableEq, Repr

/-- An in-flight liveness probe: `lookupNetwork` captures
`initialNetwork = this.getNetworkState()` before issuing the request. -/
structure Probe where
  initialNetwork : String
deriving DecidableEq, Repr

/-- The state of a `NetworkController` instance.  `connectionGen` is the
identity of the currently installed connection (the proxies' internal
target); `providerProxyId` / `blockTrackerProxyId` are the identities of the
two swappable proxy objects (`none` until first created); `nextId` is a
fresh-identity source; `hasProvider` is, whether `this._provider` is
non-null. -/
structure NCState where
  provider : ProviderConfig
  previousProvider : ProviderConfig
  network : String
  hasProvider : Bool
  providerProxyId : Option Nat
  blockTrackerProxyId : Option Nat
  connectionGen : Nat
  nextId : Nat
  didChangeSubscribed : Bool
  pendingProbes : List Probe
  trace : List Ev
deriving DecidableEq, Repr

/-- The default provider configuration (non-test branch): managed endpoint
`main`, ticker STC. -/
def defaultProviderConfig : ProviderConfig :=
  { type := "main", chainId := "0x1" }

/-- Constructor `new NetworkController(opts)`: stores initialised with the given (or
default) provider config, previous slot a copy of it, network status
`"loading"`, no provider or proxies yet, and the standing
`NETWORK_DID_CHANGE → lookupNetwork` subscription registered. -/
def mkController (c : ProviderConfig := defaultProviderConfig) : NCState :=
  { provider := c
    previousProvider := c
    network := "loading"
    hasProvider := false
    providerProxyId := none
    blockTrackerProxyId := none
    connectionGen := 0
    nextId := 1
    didChangeSubscribed := true
    pendingProbes := []
    trace := [] }

/-- Method `getNetworkState()`. -/
def getNetworkState (st : NCState) : String := st.network

/-- Method `setNetworkState(network)`: writes the network store (observable, hence
traced). -/
def setNetworkState (v : String) (st : NCState) : NCState :=
  { st with network := v, trace := st.trace ++ [Ev.statusSet v] }

/-- Method `isNetworkLoading()`. -/
def isNetworkLoading (st : NCState) : Bool := st.network = "loading"

/-- Method `getProviderConfig()`. -/
def getProviderConfig (st : NCState) : ProviderConfig := st.provider

/-- Method `getCurrentChainId()`:
`NETWORK_TYPE_TO_ID_MAP[type]?.chainId || configChainId`. -/
def getCurrentChainId (st : NCState) : String :=
  match NETWORK_TYPE_TO_ID_MAP st.provider.type with
  | some cid => cid
  | none => st.provider.chainId

/-- Method `getNetworkIdentifier()`. -/
def getNetworkIdentifier (st : NCState) : String :=
  if st.provider.type = NETWORK_TYPE_RPC then st.provider.rpcUrl
  else st.provider.type

/-- Method `getProviderAndBlockTracker()`: returns the two proxy handles. -/
def getProviderAndBlockTracker (st : NCState) : Option Nat × Option Nat :=
  (st.providerProxyId, st.blockTrackerProxyId)

/-- Method `lookupNetwork()`: aborts if no provider; if the current configuration
yields no usable chainId, sets status to `"loading"` and aborts; otherwise
captures the current status and issues one asynchronous probe (appended to
the pending list; its callback is `fireProbe`). -/
def lookupNetwork (st : NCState) : NCState :=
  if !st.hasProvider then st
  else if getCurrentChainId st = "" then setNetworkState "loading" st
  else
    { st with
      pendingProbes := st.pendingProbes ++ [⟨st.network⟩]
      trace := st.trace ++ [Ev.probeStarted st.network] }

/-- The probe callback of `lookupNetwork` (lines 161-172): on response,
re-read the status; if it differs from the captured snapshot, discard the
response; otherwise on error set `"loading"`, on success set the reported
version. -/
def fireProbe (p : Probe) (resp : Except Unit String) (st : NCState) : NCState :=
  if p.initialNetwork = st.network then
    match resp with
    | Except.error _ => setNetworkState "loading" st
    | Except.ok v => setNetworkState v st
  else st

/-- Deliver the response of the i-th pending probe (the scheduler's choice of
which in-flight callback runs next). -/
def deliverProbe (i : Nat) (resp : Except Unit String) (st : NCState) : NCState :=
  match st.pendingProbes.get? i with
  | none => st
  | some p =>
      fireProbe p resp { st with pendingProbes := st.pendingProbes.eraseIdx i }

/-- Method `_setProviderAndBlockTracker`: create the proxies on first install,
otherwise retarget them (identity preserved); then set `_provider` /
`_blockTracker` to the new connection. -/
def setProviderAndBlockTracker (st : NCState) : NCState :=
  let gen := st.nextId
  let st1 := { st with nextId := st.nextId + 1 }
  let st2 :=
    match st1.providerProxyId with
    | some _ => st1
    | none => { st1 with providerProxyId := some st1.nextId, nextId := st1.nextId + 1 }
  let st3 :=
    match st2.blockTrackerProxyId with
    | some _ => st2
    | none => { st2 with blockTrackerProxyId := some st2.nextId, nextId := st2.nextId + 1 }
  { st3 with
    hasProvider := true
    connectionGen := gen
    trace := st3.trace ++ [Ev.installed gen] }

/-- Method `_configureProvider`: managed endpoints and custom RPC endpoints both
build a fresh connection and install it; an unknown type throws. -/
def configureProvider (c : ProviderConfig) (st : NCState) : NCState × Option String :=
  if INFURA_PROVIDER_TYPES.contains c.type then
    (setProviderAndBlockTracker st, none)
  else if c.type = NETWORK_TYPE_RPC then
    (setProviderAndBlockTracker st, none)
  else
    (st, some ("NetworkController - _configureProvider - unknown type " ++ c.type))

/-- Emission of `NETWORK_DID_CHANGE`: `EventEmitter.emit` synchronously runs
the listeners; the constructor's standing subscription makes `lookupNetwork`
one of them. -/
def emitNetworkDidChange (ty : String) (st : NCState) : NCState :=
  let st1 := { st with trace := st.trace ++ [Ev.didChange ty] }
  if st1.didChangeSubscribed then lookupNetwork st1 else st1

/-- Method `_switchNetwork(opts)`: emit `NETWORK_WILL_CHANGE`, reset status to
`"loading"`, configure and install the new connection, emit
`NETWORK_DID_CHANGE`. -/
def switchNetwork (c : ProviderConfig) (st : NCState) : NCState × Option String :=
  let st1 := { st with trace := st.trace ++ [Ev.willChange] }
  let st2 := setNetworkState "loading" st1
  match configureProvider c st2 with
  | (st3, some e) => (st3, some e)
  | (st3, none) => (emitNetworkDidChange c.type st3, none)

/-- Method `setProviderConfig(config)`: snapshot the current config into the
previous slot, install the new config, and switch. -/
def setProviderConfig (c : ProviderConfig) (st : NCState) : NCState × Option String :=
  let st1 := { st with previousProvider := st.provider }
  let st2 := { st1 with provider := c }
  switchNetwork c st2

/-- Method `rollbackToPreviousProvider()`: re-apply the retained previous config as
current (without touching the previous slot) and switch. -/
def rollbackToPreviousProvider (st : NCState) : NCState × Option String :=
  let c := st.previousProvider
  switchNetwork c { st with provider := c }

/-- Method `resetConnection()`: re-apply the current configuration. -/
def resetConnection (st : NCState) : NCState × Option String :=
  setProviderConfig (getProviderConfig st) st

/-- Method `setRpcTarget(rpcUrl, chainId, ticker, nickname, rpcPrefs)`: validate the
chainId (hex format, then safe bound), then switch to a custom RPC config. -/
def setRpcTarget (rpcUrl chainId : String) (ticker : String := "STC")
    (nickname : String := "") (rpcPrefs : Option String := none)
    (st : NCState) : NCState × Option String :=
  if !isPrefixedFormattedHexString chainId then
    (st, some ("Invalid chain ID " ++ chainId ++ ": invalid hex string."))
  else if !isSafeChainId (parseHexChainId chainId) then
    (st, some ("Invalid chain ID " ++ chainId ++
      ": numerical value greater than max safe value."))
  else
    setProviderConfig
      { type := NETWORK_TYPE_RPC, rpcUrl := rpcUrl, chainId := chainId,
        ticker := ticker, nickname := nickname, rpcPrefs := rpcPrefs } st

/-- Method `setProviderType(type, rpcUrl, ticker, nickname)`: reject the custom-RPC
sentinel, reject anything outside the closed managed-endpoint set, then look
up the canonical chainId and switch. -/
def setProviderType (ty : String) (rpcUrl : String := "")
    (ticker : String := "STC") (nickname : String := "")
    (st : NCState) : NCState × Option String :=
  if ty = NETWORK_TYPE_RPC then
    (st, some ("NetworkController - cannot call setProviderType with type " ++
      NETWORK_TYPE_RPC ++ ". Use setRpcTarget"))
  else if !INFURA_PROVIDER_TYPES.contains ty then
    (st, some ("Unknown Infura provider type " ++ ty ++ "."))
  else
    setProviderConfig
      { type := ty, rpcUrl := rpcUrl,
        chainId := (NETWORK_TYPE_TO_ID_MAP ty).getD "",
        ticker := ticker, nickname := nickname, rpcPrefs := none } st

/-- Method `initializeProvider(providerParams)`: configure from the current config
and run an initial `lookupNetwork` (no lifecycle events). -/
def initializeProvider (st : NCState) : NCState × Option String :=
  match configureProvider st.provider st with
  | (st1, some e) => (st1, some e)
  | (st1, none) => (lookupNetwork st1, none)

/-- Method `verifyNetwork()`: probe again only when status is `"loading"`. -/
def verifyNetwork (st : NCState) : NCState :=
  if isNetworkLoading st then lookupNetwork st else st

/-- A custom RPC endpoint configuration, as `setRpcTarget` would build it. -/
def rpcLocalConfig : ProviderConfig :=
  { type := NETWORK_TYPE_RPC, rpcUrl := "http://localhost:9850", chainId := "0xfe" }

/-- The managed endpoint `barnard` configuration, as `setProviderType` would
build it. -/
def barnardConfig : ProviderConfig := { type := "barnard", chainId := "0xfb" }

/-- A freshly constructed controller after `initializeProvider`: proxies
created, one initial probe in flight. -/
def initState : NCState := (initializeProvider (mkController defaultProviderConfig)).1

/-- State `initState` after one switch to the local custom RPC endpoint. -/
def switchedState : NCState := (setProviderConfig rpcLocalConfig initState).1

/-- State `initState` after one switch to the managed endpoint `barnard`. -/
def switchedBarnardState : NCState := (setProviderConfig barnardConfig initState).1

/-- State `switchedState` after a second, back-to-back switch to `barnard`. -/
def switchedTwiceState : NCState := (setProviderConfig barnardConfig switchedState).1

/-- A controller (not yet initialized) after two back-to-back switches:
exactly the two switches' probes are in flight. -/
def twoSwitchState : NCState :=
  (setProviderConfig barnardConfig
    (setProviderConfig rpcLocalConfig (mkController defaultProviderConfig)).1).1

/-! ### Helper lemmas about the building blocks of a switch -/

theorem spbt_spec (st : NCState) :
    (setProviderAndBlockTracker st).provider = st.provider ∧
    (setProviderAndBlockTracker st).previousProvider = st.previousProvider ∧
    (setProviderAndBlockTracker st).network = st.network ∧
    (setProviderAndBlockTracker st).pendingProbes = st.pendingProbes ∧
    (setProviderAndBlockTracker st).didChangeSubscribed = st.didChangeSubscribed ∧
    (setProviderAndBlockTracker st).hasProvider = true ∧
    (setProviderAndBlockTracker st).connectionGen = st.nextId ∧
    (setProviderAndBlockTracker st).trace = st.trace ++ [Ev.installed st.nextId] ∧
    (st.providerProxyId.isSome = true →
      (setProviderAndBlockTracker st).providerProxyId = st.providerProxyId) ∧
    (st.blockTrackerProxyId.isSome = true →
      (setProviderAndBlockTracker st).blockTrackerProxyId = st.blockTrackerProxyId) := by
  unfold setProviderAndBlockTracker
  cases h1 : st.providerProxyId <;> cases h2 : st.blockTrackerProxyId <;> simp [h1, h2]

theorem getCurrentChainId_provider (st st' : NCState)
    (h : st'.provider = st.provider) :
    getCurrentChainId st' = getCurrentChainId st := by
  unfold getCurrentChainId
  rw [h]

theorem lookupNetwork_probe_eq (st : NCState) (h1 : st.hasProvider = true)
    (h2 : getCurrentChainId st ≠ "") :
    lookupNetwork st =
      { st with
        pendingProbes := st.pendingProbes ++ [⟨st.network⟩]
        trace := st.trace ++ [Ev.probeStarted st.network] } := by
  unfold lookupNetwork
  simp [h1, h2]

theorem lookupNetwork_nochain_eq (st : NCState) (h1 : st.hasProvider = true)
    (h2 : getCurrentChainId st = "") :
    lookupNetwork st = setNetworkState "loading" st := by
  unfold lookupNetwork
  simp [h1, h2]

theorem lookupNetwork_spec (st : NCState) :
    (lookupNetwork st).provider = st.provider ∧
    (lookupNetwork st).previousProvider = st.previousProvider ∧
    (lookupNetwork st).providerProxyId = st.providerProxyId ∧
    (lookupNetwork st).blockTrackerProxyId = st.blockTrackerProxyId ∧
    (lookupNetwork st).connectionGen = st.connectionGen ∧
    (lookupNetwork st).hasProvider = st.hasProvider ∧
    (lookupNetwork st).didChangeSubscribed = st.didChangeSubscribed ∧
    ((lookupNetwork st).network = st.network ∨ (lookupNetwork st).network = "loading") ∧
    ((lookupNetwork st).pendingProbes = st.pendingProbes ∨
      (lookupNetwork st).pendingProbes = st.pendingProbes ++ [⟨st.network⟩]) ∧
    (∃ t, (lookupNetwork st).trace = st.trace ++ t) := by
  unfold lookupNetwork
  split_ifs with h1 h2 <;> simp [setNetworkState]

theorem emitNetworkDidChange_spec (ty : String) (st : NCState) :
    (emitNetworkDidChange ty st).provider = st.provider ∧
    (emitNetworkDidChange ty st).previousProvider = st.previousProvider ∧
    (emitNetworkDidChange ty st).providerProxyId = st.providerProxyId ∧
    (emitNetworkDidChange ty st).blockTrackerProxyId = st.blockTrackerProxyId ∧
    (emitNetworkDidChange ty st).connectionGen = st.connectionGen ∧
    (emitNetworkDidChange ty st).hasProvider = st.hasProvider ∧
    (emitNetworkDidChange ty st).didChangeSubscribed = st.didChangeSubscribed ∧
    ((emitNetworkDidChange ty st).network = st.network ∨
      (emitNetworkDidChange ty st).network = "loading") ∧
    ((emitNetworkDidChange ty st).pendingProbes = st.pendingProbes ∨
      (emitNetworkDidChange ty st).pendingProbes = st.pendingProbes ++ [⟨st.network⟩]) := by
  unfold emitNetworkDidChange
  dsimp only
  split_ifs with h
  · have hl := lookupNetwork_spec { st with trace := st.trace ++ [Ev.didChange ty] }
    dsimp only at hl
    tauto
  · simp

theorem configureProvider_ok (c : ProviderConfig) (st : NCState)
    (h : INFURA_PROVIDER_TYPES.contains c.type = true ∨ c.type = NETWORK_TYPE_RPC) :
    configureProvider c st = (setProviderAndBlockTracker st, none) := by
  unfold configureProvider
  split
  · rfl
  · split
    · rfl
    · rcases h with h | h <;> simp_all

theorem configureProvider_err (c : ProviderConfig) (st : NCState)
    (h1 : INFURA_PROVIDER_TYPES.contains c.type = false)
    (h2 : c.type ≠ NETWORK_TYPE_RPC) :
    configureProvider c st =
      (st, some ("NetworkController - _configureProvider - unknown type " ++ c.type)) := by
  unfold configureProvider
  rw [h1]
  simp [h2]

theorem switchNetwork_ok_eq (c : ProviderConfig) (st : NCState)
    (h : INFURA_PROVIDER_TYPES.contains c.type = true ∨ c.type = NETWORK_TYPE_RPC) :
    switchNetwork c st =
      (emitNetworkDidChange c.type
        (setProviderAndBlockTracker
          (setNetworkState "loading" { st with trace := st.trace ++ [Ev.willChange] })),
       none) := by
  unfold switchNetwork
  dsimp only
  rw [configureProvider_ok c _ h]

theorem switchNetwork_err_eq (c : ProviderConfig) (st : NCState)
    (h1 : INFURA_PROVIDER_TYPES.contains c.type = false)
    (h2 : c.type ≠ NETWORK_TYPE_RPC) :
    switchNetwork c st =
      (setNetworkState "loading" { st with trace := st.trace ++ [Ev.willChange] },
       some ("NetworkController - _configureProvider - unknown type " ++ c.type)) := by
  unfold switchNetwork
  dsimp only
  rw [configureProvider_err c _ h1 h2]

theorem switchNetwork_ok_type (c : ProviderConfig) (st : NCState)
    (h : (switchNetwork c st).2 = none) :
    INFURA_PROVIDER_TYPES.contains c.type = true ∨ c.type = NETWORK_TYPE_RPC := by
  by_cases h1 : INFURA_PROVIDER_TYPES.contains c.type = true
  · exact Or.inl h1
  · by_cases h2 : c.type = NETWORK_TYPE_RPC
    · exact Or.inr h2
    · rw [switchNetwork_err_eq c st (by simpa using h1) h2] at h
      simp at h

theorem switchNetwork_config_pres (c : ProviderConfig) (st : NCState) :
    (switchNetwork c st).1.provider = st.provider ∧
    (switchNetwork c st).1.previousProvider = st.previousProvider := by
  rcases Classical.em
      (INFURA_PROVIDER_TYPES.contains c.type = true ∨ c.type = NETWORK_TYPE_RPC) with hty | hty
  · rw [switchNetwork_ok_eq c st hty]
    exact ⟨(emitNetworkDidChange_spec _ _).1.trans (spbt_spec _).1,
           (emitNetworkDidChange_spec _ _).2.1.trans (spbt_spec _).2.1⟩
  · push_neg at hty
    rw [switchNetwork_err_eq c st (by simpa using hty.1) hty.2]
    exact ⟨rfl, rfl⟩

theorem switchNetwork_ok_snd (c : ProviderConfig) (st : NCState)
    (h : INFURA_PROVIDER_TYPES.contains c.type = true ∨ c.type = NETWORK_TYPE_RPC) :
    (switchNetwork c st).2 = none := by
  rw [switchNetwork_ok_eq c st h]

theorem switchNetwork_ok_spec (c : ProviderConfig) (st : NCState)
    (h : (switchNetwork c st).2 = none) :
    (switchNetwork c st).1.provider = st.provider ∧
    (switchNetwork c st).1.previousProvider = st.previousProvider ∧
    (switchNetwork c st).1.network = "loading" ∧
    (switchNetwork c st).1.hasProvider = true ∧
    (switchNetwork c st).1.connectionGen = st.nextId ∧
    (switchNetwork c st).1.didChangeSubscribed = st.didChangeSubscribed ∧
    (st.providerProxyId.isSome = true →
      (switchNetwork c st).1.providerProxyId = st.providerProxyId) ∧
    (st.blockTrackerProxyId.isSome = true →
      (switchNetwork c st).1.blockTrackerProxyId = st.blockTrackerProxyId) ∧
    ((switchNetwork c st).1.pendingProbes = st.pendingProbes ∨
      (switchNetwork c st).1.pendingProbes = st.pendingProbes ++ [⟨"loading"⟩]) := by
  have hty := switchNetwork_ok_type c st h
  rw [switchNetwork_ok_eq c st hty]
  dsimp only
  obtain ⟨hp, hpp, hn, hpend, hsub, hhas, hgen, htr, hpx, hbx⟩ :=
    spbt_spec (setNetworkState "loading" { st with trace := st.trace ++ [Ev.willChange] })
  obtain ⟨ep, epp, epx, ebx, egen, ehas, esub, enet, epend⟩ :=
    emitNetworkDidChange_spec c.type
      (setProviderAndBlockTracker
        (setNetworkState "loading" { st with trace := st.trace ++ [Ev.willChange] }))
  refine ⟨?_, ?_, ?_, ?_, ?_, ?_, ?_, ?_, ?_⟩
  · exact ep.trans hp
  · exact epp.trans hpp
  · rcases enet with e | e
    · exact e.trans hn
    · exact e
  · exact ehas.trans hhas
  · exact egen.trans hgen
  · exact esub.trans hsub
  · intro hs
    exact epx.trans (hpx hs)
  · intro hs
    exact ebx.trans (hbx hs)
  · rcases epend with e | e
    · exact Or.inl (e.trans hpend)
    · refine Or.inr (e.trans ?_)
      rw [hpend, hn]
      rfl

theorem emitNetworkDidChange_sub_eq (ty : String) (st : NCState)
    (h : st.didChangeSubscribed = true) :
    emitNetworkDidChange ty st =
      lookupNetwork { st with trace := st.trace ++ [Ev.didChange ty] } := by
  unfold emitNetworkDidChange
  dsimp only
  simp [h]

theorem setProviderConfig_spec (c : ProviderConfig) (st : NCState) :
    (setProviderConfig c st).1.provider = c ∧
    (setProviderConfig c st).1.previousProvider = st.provider := by
  have h := switchNetwork_config_pres c
    { st with provider := c, previousProvider := st.provider }
  exact ⟨h.1, h.2⟩

theorem rollbackToPreviousProvider_spec (st : NCState) :
    (rollbackToPreviousProvider st).1.provider = st.previousProvider ∧
    (rollbackToPreviousProvider st).1.previousProvider = st.previousProvider := by
  have h := switchNetwork_config_pres st.previousProvider
    { st with provider := st.previousProvider }
  exact ⟨h.1, h.2⟩

theorem setRpcTarget_ok_eq (rpcUrl chainId ticker nickname : String)
    (prefs : Option String) (st : NCState)
    (h1 : isPrefixedFormattedHexString chainId = true)
    (h2 : isSafeChainId (parseHexChainId chainId) = true) :
    setRpcTarget rpcUrl chainId ticker nickname prefs st =
      setProviderConfig
        { type := NETWORK_TYPE_RPC, rpcUrl := rpcUrl, chainId := chainId,
          ticker := ticker, nickname := nickname, rpcPrefs := prefs } st := by
  unfold setRpcTarget
  simp [h1, h2]

theorem setProviderType_ok_eq (ty rpcUrl ticker nickname : String) (st : NCState)
    (h1 : INFURA_PROVIDER_TYPES.contains ty = true) :
    setProviderType ty rpcUrl ticker nickname st =
      setProviderConfig
        { type := ty, rpcUrl := rpcUrl, chainId := (NETWORK_TYPE_TO_ID_MAP ty).getD "",
          ticker := ticker, nickname := nickname, rpcPrefs := none } st := by
  have h2 : ty ≠ NETWORK_TYPE_RPC := by
    intro he
    rw [he] at h1
    exact absurd h1 (by decide)
  have h1' : ty ∈ INFURA_PROVIDER_TYPES := by simpa using h1
  unfold setProviderType
  simp [h1', h2]

theorem emit_probe_spec (ty : String) (T : NCState)
    (hsub : T.didChangeSubscribed = true)
    (hhas : T.hasProvider = true)
    (hch : getCurrentChainId T ≠ "") :
    emitNetworkDidChange ty T =
      { T with
        pendingProbes := T.pendingProbes ++ [⟨T.network⟩]
        trace := T.trace ++ [Ev.didChange ty, Ev.probeStarted T.network] } := by
  rw [emitNetworkDidChange_sub_eq ty T hsub]
  rw [lookupNetwork_probe_eq { T with trace := T.trace ++ [Ev.didChange ty] }
    (by exact hhas)
    (by rw [getCurrentChainId_provider T _ (by rfl)]; exact hch)]
  simp

theorem switch_from_proxies (c : ProviderConfig) (b : NCState) (pid bid gen0 : Nat)
    (hbp : b.providerProxyId = some pid) (hbb : b.blockTrackerProxyId = some bid)
    (hgen : gen0 < b.nextId)
    (hok : (switchNetwork c b).2 = none) :
    (switchNetwork c b).1.network = "loading" ∧
    getProviderAndBlockTracker (switchNetwork c b).1 = (some pid, some bid) ∧
    (switchNetwork c b).1.connectionGen ≠ gen0 := by
  obtain ⟨-, -, hn, -, hcg, -, hpx, hbx, -⟩ := switchNetwork_ok_spec c b hok
  refine ⟨hn, ?_, ?_⟩
  · unfold getProviderAndBlockTracker
    rw [hpx (by rw [hbp]; rfl), hbx (by rw [hbb]; rfl), hbp, hbb]
  · rw [hcg]
    omega

/-! ### Claim theorems -/

/-- C1: Stale-probe guard.  Two switches are issued back-to-back
(`h1`, `h2`), the first having put a probe in flight (`hp`, its captured
snapshot is necessarily `"loading"`).  The second switch's own probe resolves
first with version `v ≠ "loading"`, moving the status away from `loading`;
when the first probe's response then arrives, its callback compares the
snapshot it captured with the now-current status, finds them unequal, and
discards its result: the state is left untouched. -/
theorem stale_probe_response_discarded
    (st st1 st2 : NCState) (c1 c2 : ProviderConfig) (p1 : Probe)
    (v : String) (resp : Except Unit String)
    (h1 : setProviderConfig c1 st = (st1, none))
    (hp : st1.pendingProbes = st.pendingProbes ++ [p1])
    (h2 : setProviderConfig c2 st1 = (st2, none))
    (hv : v ≠ "loading") :
    (fireProbe ⟨"loading"⟩ (Except.ok v) st2).network = v ∧
    fireProbe p1 resp (fireProbe ⟨"loading"⟩ (Except.ok v) st2) =
      fireProbe ⟨"loading"⟩ (Except.ok v) st2 := by
  have h1' : switchNetwork c1 { st with provider := c1, previousProvider := st.provider } =
      (st1, none) := h1
  have h2' : switchNetwork c2 { st1 with provider := c2, previousProvider := st1.provider } =
      (st2, none) := h2
  have hs1 := switchNetwork_ok_spec c1
    { st with provider := c1, previousProvider := st.provider } (by rw [h1'])
  have hs2 := switchNetwork_ok_spec c2
    { st1 with provider := c2, previousProvider := st1.provider } (by rw [h2'])
  rw [h1'] at hs1
  rw [h2'] at hs2
  dsimp only at hs1 hs2
  obtain ⟨-, -, hn1, -, -, -, -, -, hpend1⟩ := hs1
  obtain ⟨-, -, hn2, -, -, -, -, -, -⟩ := hs2
  have hp1 : p1 = (⟨"loading"⟩ : Probe) := by
    rcases hpend1 with e | e
    · have hlen := congrArg List.length (hp.symm.trans e)
      simp at hlen
    · have hcan := hp.symm.trans e
      simpa using hcan
  have g1 : fireProbe ⟨"loading"⟩ (Except.ok v) st2 = setNetworkState v st2 := by
    unfold fireProbe
    rw [hn2]
    simp
  refine ⟨by rw [g1]; rfl, ?_⟩
  rw [g1]
  unfold fireProbe
  rw [hp1]
  rw [if_neg]
  dsimp only [setNetworkState]
  intro hcontra
  exact hv hcontra.symm

/-- Witness for C1: from a freshly initialized controller, switch to the
local RPC endpoint and then to `barnard` back-to-back; the second probe
resolves with "254", after which the first probe's late response "1" is
discarded. -/
theorem stale_probe_response_discarded_witness :
    (fireProbe ⟨"loading"⟩ (Except.ok "254") switchedTwiceState).network = "254" ∧
    fireProbe ⟨"loading"⟩ (Except.ok "1")
        (fireProbe ⟨"loading"⟩ (Except.ok "254") switchedTwiceState) =
      fireProbe ⟨"loading"⟩ (Except.ok "254") switchedTwiceState :=
  stale_probe_response_discarded initState switchedState switchedTwiceState
    rpcLocalConfig barnardConfig ⟨"loading"⟩ "254" (Except.ok "1")
    (by rfl) (by rfl) (by rfl) (by decide)

/-- C2: every chainId failing the 0x-hex format check or the safe-integer
bound makes `setRpcTarget` raise a validation error synchronously, with the
provider config, the previous-config slot and the network status all
unchanged from before the call. -/
theorem setRpcTarget_invalid_chainId_rejected (st : NCState)
    (rpcUrl chainId ticker nickname : String) (prefs : Option String)
    (h : isPrefixedFormattedHexString chainId = false ∨
        isSafeChainId (parseHexChainId chainId) = false) :
    (setRpcTarget rpcUrl chainId ticker nickname prefs st).1 = st ∧
    (setRpcTarget rpcUrl chainId ticker nickname prefs st).1.provider = st.provider ∧
    (setRpcTarget rpcUrl chainId ticker nickname prefs st).1.previousProvider =
      st.previousProvider ∧
    (setRpcTarget rpcUrl chainId ticker nickname prefs st).1.network = st.network ∧
    ∃ msg, (setRpcTarget rpcUrl chainId ticker nickname prefs st).2 = some msg := by
  have herr : (setRpcTarget rpcUrl chainId ticker nickname prefs st).1 = st ∧
      ∃ msg, (setRpcTarget rpcUrl chainId ticker nickname prefs st).2 = some msg := by
    unfold setRpcTarget
    rcases h with h | h
    · simp [h]
    · by_cases h1 : isPrefixedFormattedHexString chainId <;> simp [h1, h]
  exact ⟨herr.1, by rw [herr.1], by rw [herr.1], by rw [herr.1], herr.2⟩

/-- Witness for C2 at the malformed chainId "254" (missing 0x prefix). -/
theorem setRpcTarget_invalid_chainId_rejected_witness :
    (setRpcTarget "http://localhost:9850" "254" "STC" "" none initState).1 = initState ∧
    (setRpcTarget "http://localhost:9850" "254" "STC" "" none initState).1.provider =
      initState.provider ∧
    (setRpcTarget "http://localhost:9850" "254" "STC" "" none initState).1.previousProvider =
      initState.previousProvider ∧
    (setRpcTarget "http://localhost:9850" "254" "STC" "" none initState).1.network =
      initState.network ∧
    ∃ msg, (setRpcTarget "http://localhost:9850" "254" "STC" "" none initState).2 = some msg :=
  setRpcTarget_invalid_chainId_rejected initState "http://localhost:9850" "254" "STC" "" none
    (Or.inl (by decide))

/-- C5: every valid 0x-hex chainId within the safe-integer bound makes
`setRpcTarget` succeed, and afterwards `getProviderConfig().chainId` equals
the chainId passed in. -/
theorem setRpcTarget_valid_chainId_succeeds (st : NCState)
    (rpcUrl chainId ticker nickname : String) (prefs : Option String)
    (h1 : isPrefixedFormattedHexString chainId = true)
    (h2 : isSafeChainId (parseHexChainId chainId) = true) :
    (setRpcTarget rpcUrl chainId ticker nickname prefs st).2 = none ∧
    (getProviderConfig (setRpcTarget rpcUrl chainId ticker nickname prefs st).1).chainId =
      chainId := by
  have he : setRpcTarget rpcUrl chainId ticker nickname prefs st =
      setProviderConfig
        { type := NETWORK_TYPE_RPC, rpcUrl := rpcUrl, chainId := chainId,
          ticker := ticker, nickname := nickname, rpcPrefs := prefs } st := by
    unfold setRpcTarget
    simp [h1, h2]
  rw [he]
  constructor
  · exact switchNetwork_ok_snd _ _ (Or.inr rfl)
  · exact congrArg ProviderConfig.chainId (setProviderConfig_spec _ st).1

/-- Witness for C5 at the valid chainId "0xfe". -/
theorem setRpcTarget_valid_chainId_succeeds_witness :
    (setRpcTarget "http://localhost:9850" "0xfe" "STC" "" none initState).2 = none ∧
    (getProviderConfig
        (setRpcTarget "http://localhost:9850" "0xfe" "STC" "" none initState).1).chainId =
      "0xfe" :=
  setRpcTarget_valid_chainId_succeeds initState "http://localhost:9850" "0xfe" "STC" "" none
    (by decide) (by decide)

/-- C6: `setProviderType` fails with a validation error for the custom-RPC
sentinel type and for every type outside the closed managed-endpoint set, and
in both failure cases no state is mutated. -/
theorem setProviderType_rejects_sentinel_and_unknown (st : NCState)
    (ty rpcUrl ticker nickname : String)
    (h : ty = NETWORK_TYPE_RPC ∨ INFURA_PROVIDER_TYPES.contains ty = false) :
    (setProviderType ty rpcUrl ticker nickname st).1 = st ∧
    ∃ msg, (setProviderType ty rpcUrl ticker nickname st).2 = some msg := by
  unfold setProviderType
  rcases h with h | h
  · simp [h]
  · have h' : ty ∉ INFURA_PROVIDER_TYPES := by simpa using h
    by_cases h1 : ty = NETWORK_TYPE_RPC <;> simp [h1, h']

/-- Witness for C6 at the sentinel type itself. -/
theorem setProviderType_rejects_sentinel_and_unknown_witness :
    (setProviderType NETWORK_TYPE_RPC "" "STC" "" initState).1 = initState ∧
    ∃ msg, (setProviderType NETWORK_TYPE_RPC "" "STC" "" initState).2 = some msg :=
  setProviderType_rejects_sentinel_and_unknown initState NETWORK_TYPE_RPC "" "STC" ""
    (Or.inl rfl)

/-- C3: after any successful switch — via `setProviderConfig` (the common
path of all setters), `rollbackToPreviousProvider`, `resetConnection`,
`setRpcTarget` or `setProviderType` — the network status is `"loading"`
immediately after the synchronous portion of the switch, and, provided the
proxies were already created by an earlier switch or `initializeProvider`,
the proxy identities returned by `getProviderAndBlockTracker` are the same
objects as before the switch; only the proxies' internal target (the
installed connection) changes. -/
theorem switch_resets_status_and_preserves_proxies
    (st : NCState) (c : ProviderConfig)
    (rpcUrl chainId ticker nickname ty : String) (prefs : Option String)
    (pid bid : Nat)
    (hp : st.providerProxyId = some pid) (hb : st.blockTrackerProxyId = some bid)
    (hg : st.connectionGen < st.nextId) :
    ((setProviderConfig c st).2 = none →
      (setProviderConfig c st).1.network = "loading" ∧
      getProviderAndBlockTracker (setProviderConfig c st).1 = (some pid, some bid) ∧
      (setProviderConfig c st).1.connectionGen ≠ st.connectionGen) ∧
    ((rollbackToPreviousProvider st).2 = none →
      (rollbackToPreviousProvider st).1.network = "loading" ∧
      getProviderAndBlockTracker (rollbackToPreviousProvider st).1 = (some pid, some bid) ∧
      (rollbackToPreviousProvider st).1.connectionGen ≠ st.connectionGen) ∧
    ((resetConnection st).2 = none →
      (resetConnection st).1.network = "loading" ∧
      getProviderAndBlockTracker (resetConnection st).1 = (some pid, some bid) ∧
      (resetConnection st).1.connectionGen ≠ st.connectionGen) ∧
    ((setRpcTarget rpcUrl chainId ticker nickname prefs st).2 = none →
      (setRpcTarget rpcUrl chainId ticker nickname prefs st).1.network = "loading" ∧
      getProviderAndBlockTracker (setRpcTarget rpcUrl chainId ticker nickname prefs st).1 =
        (some pid, some bid) ∧
      (setRpcTarget rpcUrl chainId ticker nickname prefs st).1.connectionGen ≠
        st.connectionGen) ∧
    ((setProviderType ty rpcUrl ticker nickname st).2 = none →
      (setProviderType ty rpcUrl ticker nickname st).1.network = "loading" ∧
      getProviderAndBlockTracker (setProviderType ty rpcUrl ticker nickname st).1 =
        (some pid, some bid) ∧
      (setProviderType ty rpcUrl ticker nickname st).1.connectionGen ≠ st.connectionGen) := by
  refine ⟨?_, ?_, ?_, ?_, ?_⟩
  · intro hok
    exact switch_from_proxies c _ pid bid st.connectionGen hp hb hg hok
  · intro hok
    exact switch_from_proxies st.previousProvider _ pid bid st.connectionGen hp hb hg hok
  · intro hok
    exact switch_from_proxies st.provider _ pid bid st.connectionGen hp hb hg hok
  · intro hok
    by_cases hv1 : isPrefixedFormattedHexString chainId = true
    · by_cases hv2 : isSafeChainId (parseHexChainId chainId) = true
      · rw [setRpcTarget_ok_eq rpcUrl chainId ticker nickname prefs st hv1 hv2] at hok ⊢
        exact switch_from_proxies _ _ pid bid st.connectionGen hp hb hg hok
      · exfalso
        have hne : (setRpcTarget rpcUrl chainId ticker nickname prefs st).2 ≠ none := by
          have hv2' : isSafeChainId (parseHexChainId chainId) = false := by simpa using hv2
          unfold setRpcTarget
          simp [hv1, hv2']
        exact hne hok
    · exfalso
      have hne : (setRpcTarget rpcUrl chainId ticker nickname prefs st).2 ≠ none := by
        have hv1' : isPrefixedFormattedHexString chainId = false := by simpa using hv1
        unfold setRpcTarget
        simp [hv1']
      exact hne hok
  · intro hok
    by_cases hv1 : INFURA_PROVIDER_TYPES.contains ty = true
    · rw [setProviderType_ok_eq ty rpcUrl ticker nickname st hv1] at hok ⊢
      exact switch_from_proxies _ _ pid bid st.connectionGen hp hb hg hok
    · exfalso
      have hne : (setProviderType ty rpcUrl ticker nickname st).2 ≠ none := by
        have hv1' : ty ∉ INFURA_PROVIDER_TYPES := by simpa using hv1
        unfold setProviderType
        by_cases h2 : ty = NETWORK_TYPE_RPC <;> simp [h2, hv1']
      exact hne hok

/-- Witness for C3: from the initialized controller (proxies 2 and 3 already
created, current connection 1), each of the five switching operations resets
the status to loading, keeps the proxy identities, and installs a fresh
connection. -/
theorem switch_resets_status_and_preserves_proxies_witness :
    ((setProviderConfig barnardConfig initState).1.network = "loading" ∧
      getProviderAndBlockTracker (setProviderConfig barnardConfig initState).1 =
        (some 2, some 3) ∧
      (setProviderConfig barnardConfig initState).1.connectionGen ≠
        initState.connectionGen) ∧
    ((rollbackToPreviousProvider initState).1.network = "loading" ∧
      getProviderAndBlockTracker (rollbackToPreviousProvider initState).1 =
        (some 2, some 3) ∧
      (rollbackToPreviousProvider initState).1.connectionGen ≠ initState.connectionGen) ∧
    ((resetConnection initState).1.network = "loading" ∧
      getProviderAndBlockTracker (resetConnection initState).1 = (some 2, some 3) ∧
      (resetConnection initState).1.connectionGen ≠ initState.connectionGen) ∧
    ((setRpcTarget "http://localhost:9850" "0xfe" "STC" "" none initState).1.network =
        "loading" ∧
      getProviderAndBlockTracker
          (setRpcTarget "http://localhost:9850" "0xfe" "STC" "" none initState).1 =
        (some 2, some 3) ∧
      (setRpcTarget "http://localhost:9850" "0xfe" "STC" "" none initState).1.connectionGen ≠
        initState.connectionGen) ∧
    ((setProviderType "barnard" "" "STC" "" initState).1.network = "loading" ∧
      getProviderAndBlockTracker (setProviderType "barnard" "" "STC" "" initState).1 =
        (some 2, some 3) ∧
      (setProviderType "barnard" "" "STC" "" initState).1.connectionGen ≠
        initState.connectionGen) :=
  let T := switch_resets_status_and_preserves_proxies initState barnardConfig
    "http://localhost:9850" "0xfe" "STC" "" "barnard" none 2 3 rfl rfl (by decide)
  ⟨T.1 rfl, T.2.1 rfl, T.2.2.1 rfl, T.2.2.2.1 rfl, T.2.2.2.2 rfl⟩

/-- C4: `rollbackToPreviousProvider` re-applies the single retained previous
configuration: performed after exactly one switch (`h1`), it succeeds and
restores, by value, the configuration that was current immediately before
that switch, and it leaves the previous-config slot unchanged (no new
history entry). -/
theorem rollback_restores_previous_config (st st1 : NCState) (c : ProviderConfig)
    (h1 : setProviderConfig c st = (st1, none))
    (hv : INFURA_PROVIDER_TYPES.contains st.provider.type = true ∨
      st.provider.type = NETWORK_TYPE_RPC) :
    (rollbackToPreviousProvider st1).2 = none ∧
    (rollbackToPreviousProvider st1).1.provider = st.provider ∧
    (rollbackToPreviousProvider st1).1.previousProvider = st1.previousProvider ∧
    st1.previousProvider = st.provider := by
  have h1' : switchNetwork c { st with provider := c, previousProvider := st.provider } =
      (st1, none) := h1
  have hst1 : (switchNetwork c
      { st with provider := c, previousProvider := st.provider }).1 = st1 := by
    rw [h1']
  have hprev : st1.previousProvider = st.provider := by
    rw [← hst1]
    exact (switchNetwork_config_pres c _).2
  refine ⟨?_, ?_, (rollbackToPreviousProvider_spec st1).2, hprev⟩
  · exact switchNetwork_ok_snd _ _ (by rw [hprev]; exact hv)
  · rw [(rollbackToPreviousProvider_spec st1).1, hprev]

/-- Witness for C4: switch the initialized controller to `barnard`, then roll
back; the `main` default configuration is restored. -/
theorem rollback_restores_previous_config_witness :
    (rollbackToPreviousProvider switchedBarnardState).2 = none ∧
    (rollbackToPreviousProvider switchedBarnardState).1.provider = initState.provider ∧
    (rollbackToPreviousProvider switchedBarnardState).1.previousProvider =
      switchedBarnardState.previousProvider ∧
    switchedBarnardState.previousProvider = initState.provider :=
  rollback_restores_previous_config initState switchedBarnardState barnardConfig
    (by rfl) (Or.inl (by decide))

/-- C7: in every switch with the standing subscription active and a usable
chainId, `NETWORK_WILL_CHANGE` is emitted strictly before the status reset to
`"loading"`, the status reset strictly before the new connection is
installed, and `NETWORK_DID_CHANGE` strictly after the installation; emitting
`NETWORK_DID_CHANGE` runs `lookupNetwork` through the subscription that the
constructor registers, so the switch ends with a fresh liveness probe in
flight. -/
theorem switch_event_order_and_probe (c c0 : ProviderConfig) (st : NCState)
    (h : (switchNetwork c st).2 = none)
    (hsub : st.didChangeSubscribed = true)
    (hch : getCurrentChainId st ≠ "") :
    (switchNetwork c st).1.trace =
      st.trace ++ [Ev.willChange, Ev.statusSet "loading", Ev.installed st.nextId,
        Ev.didChange c.type, Ev.probeStarted "loading"] ∧
    (switchNetwork c st).1.pendingProbes = st.pendingProbes ++ [⟨"loading"⟩] ∧
    (mkController c0).didChangeSubscribed = true := by
  have hty := switchNetwork_ok_type c st h
  rw [switchNetwork_ok_eq c st hty]
  dsimp only
  obtain ⟨hsp, hspp, hsn, hspend, hssub, hshas, hsgen, hstr, -, -⟩ :=
    spbt_spec (setNetworkState "loading" { st with trace := st.trace ++ [Ev.willChange] })
  have hsp' : (setProviderAndBlockTracker
      (setNetworkState "loading"
        { st with trace := st.trace ++ [Ev.willChange] })).provider = st.provider := hsp
  rw [emit_probe_spec c.type _ (hssub.trans hsub) hshas
    (by rw [getCurrentChainId_provider st _ hsp']; exact hch)]
  refine ⟨?_, ?_, rfl⟩
  · dsimp only
    rw [hstr, hsn]
    dsimp only [setNetworkState]
    simp
  · dsimp only
    rw [hspend, hsn]
    dsimp only [setNetworkState]

/-- Witness for C7: a switch of the initialized controller to `barnard`. -/
theorem switch_event_order_and_probe_witness :
    (switchNetwork barnardConfig initState).1.trace =
      initState.trace ++ [Ev.willChange, Ev.statusSet "loading",
        Ev.installed initState.nextId, Ev.didChange barnardConfig.type,
        Ev.probeStarted "loading"] ∧
    (switchNetwork barnardConfig initState).1.pendingProbes =
      initState.pendingProbes ++ [⟨"loading"⟩] ∧
    (mkController defaultProviderConfig).didChangeSubscribed = true :=
  switch_event_order_and_probe barnardConfig defaultProviderConfig initState
    (by rfl) (by rfl) (by decide)

/-- C8: a liveness-probe failure is never surfaced as a distinct error state:
when the probe's response carries an error and the stale guard passes, the
status is set back to `"loading"`; in general a probe resolution leaves the
status unchanged, sets it to `"loading"`, or sets it to the reported chain
version, and a switch sets it to `"loading"` — never an explicit failure
value. -/
theorem probe_failure_collapses_to_loading (st : NCState) (p : Probe)
    (hg : p.initialNetwork = st.network) :
    (fireProbe p (Except.error ()) st).network = "loading" ∧
    (∀ (q : Probe) (resp : Except Unit String),
      (fireProbe q resp st).network = st.network ∨
      (fireProbe q resp st).network = "loading" ∨
      ∃ v, resp = Except.ok v ∧ (fireProbe q resp st).network = v) ∧
    (∀ (c : ProviderConfig) (st2 : NCState), (switchNetwork c st2).2 = none →
      (switchNetwork c st2).1.network = "loading") := by
  refine ⟨?_, ?_, ?_⟩
  · unfold fireProbe
    rw [if_pos hg]
    rfl
  · intro q resp
    unfold fireProbe
    by_cases hq : q.initialNetwork = st.network
    · rw [if_pos hq]
      cases resp with
      | error e =>
          right
          left
          rfl
      | ok v =>
          right
          right
          exact ⟨v, rfl, rfl⟩
    · rw [if_neg hq]
      left
      rfl
  · intro c st2 hok
    exact (switchNetwork_ok_spec c st2 hok).2.2.1

/-- Witness for C8: the initialized controller's own probe fails. -/
theorem probe_failure_collapses_to_loading_witness :
    (fireProbe ⟨"loading"⟩ (Except.error ()) initState).network = "loading" ∧
    (∀ (q : Probe) (resp : Except Unit String),
      (fireProbe q resp initState).network = initState.network ∨
      (fireProbe q resp initState).network = "loading" ∨
      ∃ v, resp = Except.ok v ∧ (fireProbe q resp initState).network = v) ∧
    (∀ (c : ProviderConfig) (st2 : NCState), (switchNetwork c st2).2 = none →
      (switchNetwork c st2).1.network = "loading") :=
  probe_failure_collapses_to_loading initState ⟨"loading"⟩ (by rfl)

/-- C9: `resetConnection` routes through `setProviderConfig`, so it
overwrites the previous-config slot with the current configuration: after a
reset the previous and current configurations are equal, a subsequent
rollback re-applies the configuration that is already current, and the
rollback target that existed before the reset is lost whenever it differed
from the current configuration. -/
theorem resetConnection_overwrites_history (st : NCState) :
    (resetConnection st).1.previousProvider = st.provider ∧
    (resetConnection st).1.provider = st.provider ∧
    (rollbackToPreviousProvider (resetConnection st).1).1.provider = st.provider ∧
    (st.previousProvider ≠ st.provider →
      (resetConnection st).1.previousProvider ≠ st.previousProvider) := by
  have h := setProviderConfig_spec st.provider st
  refine ⟨h.2, h.1, (rollbackToPreviousProvider_spec _).1.trans h.2, ?_⟩
  intro hne heq
  exact hne (heq.symm.trans h.2)

/-- Witness for C9: resetting after one switch loses the rollback target. -/
theorem resetConnection_overwrites_history_witness :
    (resetConnection switchedState).1.previousProvider = switchedState.provider ∧
    (resetConnection switchedState).1.previousProvider ≠ switchedState.previousProvider :=
  ⟨(resetConnection_overwrites_history switchedState).1,
   (resetConnection_overwrites_history switchedState).2.2.2 (by decide)⟩

/-- C10: the stale-response guard compares only status values, not probe
identity.  Concretely: two back-to-back switches (custom RPC, then
`barnard`) leave both probes in flight with snapshot `"loading"`; the first
(superseded) probe's response arrives first, passes the guard, and writes its
version "254"; the second (current) probe's response "251" is then discarded
by the guard, so the stale result persists. -/
theorem guard_admits_stale_probe_first :
    twoSwitchState.pendingProbes = [⟨"loading"⟩, ⟨"loading"⟩] ∧
    (deliverProbe 0 (Except.ok "254") twoSwitchState).network = "254" ∧
    (deliverProbe 0 (Except.ok "251")
        (deliverProbe 0 (Except.ok "254") twoSwitchState)).network = "254" ∧
    (deliverProbe 0 (Except.ok "251")
        (deliverProbe 0 (Except.ok "254") twoSwitchState)).pendingProbes = [] :=
  ⟨rfl, rfl, rfl, rfl⟩

end StarMask
